import Mathlib

/-!
Shallow embedding of `qan/analyzer/mongo/profiler/aggregator/aggregator.go`
(the interval-windowed aggregator of the qan-agent repository).

Modelling conventions:
* Time instants (`time.Time`, UTC) are `Nat` nanoseconds since the epoch;
  durations (`time.Duration`) are `Nat` nanoseconds.
* `time.Time.Truncate` is `truncate` below (round down to a multiple of the
  duration; Go returns the time unchanged for a non-positive duration).
* The external stats engine (`stats.Stats` from percona-toolkit mongolib) is
  kept abstract: its state is modelled as the list of profile documents
  recorded since the last `Reset`.  `len(stats.Queries()) == 0` holds exactly
  when no document was recorded since the last reset, which is how the
  aggregator consumes the engine.
* `report.MakeReport` (package `qan/analyzer/report` of this repository, not
  part of the sources here) is modelled from the spec: it wraps the window
  bounds and the closing window's data into the outgoing report.
* The result builder (`createResult` and the two stats converters) is
  embedded over the snapshot list that the external
  `queries.CalcQueriesStats` call would produce; the element type
  (`stats.QueryStats` / `stats.Statistics`) is modelled from the spec as
  integer-valued (microsecond-resolution) statistics.
* Go's `uint64(x)` / `uint(x)` conversion of a signed integer is reduction
  modulo 2^64 (`goUInt64`); Go's integer division truncates toward zero
  (`Int.tdiv`).
-/

/-- Go `time.Second` in nanoseconds. -/
def nsPerSecond : Nat := 1000000000

/-- Constant `DefaultInterval = 60` in seconds (aggregator.go line 18). -/
def DefaultInterval : Nat := 60

/-- Constant `DefaultExampleQueries = true` (aggregator.go line 19). -/
def DefaultExampleQueries : Bool := true

/-- The fields of the `pc.QAN` configuration read by the aggregator. -/
structure QAN where
  interval : Nat
  exampleQueries : Bool
deriving DecidableEq, Repr

/-- A `proto.SystemProfile` document as consumed by the windowing logic:
only its UTC timestamp (`doc.Ts.UTC()`, in nanoseconds) is inspected. -/
structure SystemProfile where
  ts : Nat
deriving DecidableEq, Repr

/-- Type `qan.Report` as produced through `report.MakeReport`.
Modelled from the spec: the report factory wraps the closing window's bounds
and its accumulated data (here: the recorded documents that the external
stats engine would turn into a `Result`). -/
structure QanReport where
  timeStart : Nat
  timeEnd : Nat
  docs : List SystemProfile
deriving DecidableEq, Repr

/-- Function `report.MakeReport(config, timeStart, timeEnd, nil, result)`.
Modelled from the spec: stamps the report with the given window bounds. -/
def MakeReport (_config : QAN) (timeStart timeEnd : Nat) (docs : List SystemProfile) : QanReport :=
  { timeStart := timeStart, timeEnd := timeEnd, docs := docs }

/-- Go `ts.UTC().Truncate(d)`: round `ts` down to a multiple of the duration
`d` (Go returns `ts` unchanged when `d <= 0`). -/
def truncate (t d : Nat) : Nat :=
  if d = 0 then t else t / d * d

/-- The state of the external stats engine (`stats.Stats`): the documents
recorded since the last `Reset`.  Modelled from the spec: `Add` records the
event, `Reset` clears the engine, and the engine reports zero distinct
fingerprints exactly when nothing was recorded. -/
abbrev StatsState := List SystemProfile

/-- Engine call `self.stats.Add(doc)`: records the document; the model's engine does not
fail (an accumulation error is an external-engine condition). -/
def StatsState.add (s : StatsState) (doc : SystemProfile) : StatsState × Option String :=
  (List.append s [doc], none)

/-- Engine test `len(self.stats.Queries()) == 0`: the engine saw no document since the
last reset. -/
def StatsState.queriesEmpty (s : StatsState) : Bool :=
  List.isEmpty s

/-- The `Aggregator` struct (aggregator.go lines 48-60).  The `sync.Mutex`
field has no sequential content and is not part of the functional state. -/
structure Aggregator where
  config : QAN
  timeStart : Nat
  timeEnd : Nat
  D : Nat
  stats : StatsState
deriving DecidableEq, Repr

/-- Method `newInterval` (aggregator.go lines 118-126): reset the stats engine,
truncate the trigger instant to the duration, and rebound the window. -/
def Aggregator.newInterval (a : Aggregator) (ts : Nat) : Aggregator :=
  { a with
    stats := ([] : List SystemProfile)
    timeStart := truncate ts a.D
    timeEnd := truncate ts a.D + a.D }

/-- Method `interval` (aggregator.go lines 86-106): if the trigger instant is
before the window end, do nothing; otherwise build the report for the
closing window (unless it observed no queries) and, afterwards (Go `defer`),
establish the new interval. -/
def Aggregator.interval (a : Aggregator) (ts : Nat) : Aggregator × Option QanReport :=
  if ts < a.timeEnd then
    (a, none)
  else if a.stats.queriesEmpty then
    (a.newInterval ts, none)
  else
    (a.newInterval ts, some (MakeReport a.config a.timeStart a.timeEnd a.stats))

/-- Method `Add` (aggregator.go lines 63-75): drop events older than the current
window start; otherwise rotate if due (`interval`) and then feed the event
into the (possibly just-reset) stats engine.  Returns the new state, the
rotation's report, and the engine's accumulation error. -/
def Aggregator.Add (a : Aggregator) (doc : SystemProfile) :
    Aggregator × Option QanReport × Option String :=
  if doc.ts < a.timeStart then
    (a, none, none)
  else
    (({ (a.interval doc.ts).1 with
        stats := ((a.interval doc.ts).1.stats.add doc).1 },
      (a.interval doc.ts).2,
      ((a.interval doc.ts).1.stats.add doc).2))

/-- Method `Report` (aggregator.go lines 78-83), the spec's `Flush`: force a
boundary evaluation at the current wall-clock instant `now`. -/
def Aggregator.Report (a : Aggregator) (now : Nat) : Aggregator × Option QanReport :=
  a.interval now

/-- Accessor `TimeStart` (aggregator.go lines 109-111). -/
def Aggregator.TimeStart (a : Aggregator) : Nat :=
  a.timeStart

/-- Accessor `TimeEnd` (aggregator.go lines 114-116). -/
def Aggregator.TimeEnd (a : Aggregator) : Nat :=
  a.timeEnd

/-- Constructor `New` (aggregator.go lines 23-45): a zero interval selects both
defaults; the duration is `interval * time.Second`; construction establishes
the first window from the given start instant. -/
def New (timeStart : Nat) (config : QAN) : Aggregator :=
  Aggregator.newInterval
    { config :=
        if config.interval = 0 then
          { config with interval := DefaultInterval, exampleQueries := DefaultExampleQueries }
        else config
      timeStart := 0
      timeEnd := 0
      D :=
        (if config.interval = 0 then DefaultInterval else config.interval) * nsPerSecond
      stats := ([] : List SystemProfile) }
    timeStart

/-! ### Result builder (`createResult` and the stats converters)

The snapshot element type `stats.QueryStats` and its `stats.Statistics`
distributions live in the external percona-toolkit mongolib package.
Modelled from the spec: distributions are microsecond-resolution integer
statistics exposing `Min/Max/Avg/Median/Pct95/Total`. -/

/-- The empty string (used for the global class's id and fingerprint). -/
def emptyStr : String := ""

/-- The namespace separator used by `strings.SplitN(queryInfo.Namespace, ".", 2)`. -/
def dotSep : String := "."

/-- Statistics of one metric distribution (`stats.Statistics`).
Modelled from the spec: integer statistics in the input resolution. -/
structure Statistics where
  Total : Int
  Min : Int
  Max : Int
  Avg : Int
  Pct95 : Int
  Median : Int
deriving DecidableEq, Repr

/-- One element of the snapshot `queries.CalcQueriesStats(...)`
(`stats.QueryStats`), restricted to the fields `createResult` reads. -/
structure QueryStats where
  ID : String
  Namespace : String
  Fingerprint : String
  Query : String
  Count : Int
  QueryTime : Statistics
  ResponseLength : Statistics
  Returned : Statistics
  Scanned : Statistics
deriving DecidableEq, Repr

/-- Go conversion `uint64(x)` (also `uint(x)` on a 64-bit platform) of a
signed integer: reduction modulo `2^64`. -/
def goUInt64 (x : Int) : Nat :=
  (x % (2 : Int) ^ 64).toNat

/-- Type `event.TimeStats` of the external go-mysql package: the converted
latency statistics stored under the key `Query_time`. -/
structure Event.TimeStats where
  Sum : Int
  Min : Int
  Avg : Int
  Med : Int
  P95 : Int
  Max : Int
deriving DecidableEq, Repr

/-- Type `event.NumberStats` of the external go-mysql package: unsigned
pass-through statistics. -/
structure Event.NumberStats where
  Sum : Nat
  Min : Nat
  Avg : Nat
  Med : Nat
  P95 : Nat
  Max : Nat
deriving DecidableEq, Repr

/-- Function `newEventTimeStatsInMilliseconds` (aggregator.go lines
185-194): every statistic is divided by 1000; Go's `/` on integers
truncates toward zero (`Int.tdiv`). -/
def newEventTimeStatsInMilliseconds (s : Statistics) : Event.TimeStats :=
  { Sum := s.Total.tdiv 1000
    Min := s.Min.tdiv 1000
    Avg := s.Avg.tdiv 1000
    Med := s.Median.tdiv 1000
    P95 := s.Pct95.tdiv 1000
    Max := s.Max.tdiv 1000 }

/-- Function `newEventNumberStats` (aggregator.go lines 174-183): every
statistic is converted with `uint64(...)`. -/
def newEventNumberStats (s : Statistics) : Event.NumberStats :=
  { Sum := goUInt64 s.Total
    Min := goUInt64 s.Min
    Avg := goUInt64 s.Avg
    Med := goUInt64 s.Median
    P95 := goUInt64 s.Pct95
    Max := goUInt64 s.Max }

/-- Type `event.Example` of the external go-mysql package: the example
payload attached to a class when example retention is enabled. -/
structure Event.Example where
  QueryTime : Int
  Db : String
  Query : String
deriving DecidableEq, Repr

/-- The metric map built by `createResult`: the Go `event.Metrics` maps are
populated with exactly the keys `Query_time` (time metrics) and
`Bytes_sent`, `Rows_sent`, `Rows_examined` (number metrics). -/
structure Event.Metrics where
  queryTime : Event.TimeStats
  bytesSent : Event.NumberStats
  rowsSent : Event.NumberStats
  rowsExamined : Event.NumberStats
deriving DecidableEq, Repr

/-- Type `event.Class` of the external go-mysql package, restricted to what
`createResult` uses.  `Metrics = none` stands for the freshly created empty
`event.NewMetrics()` maps; `sample` is the retention flag passed to
`event.NewClass`. -/
structure Event.Class where
  Id : String
  Fingerprint : String
  sample : Bool
  Example : Option Event.Example
  Metrics : Option Event.Metrics
  TotalQueries : Nat
  UniqueQueries : Nat
deriving DecidableEq, Repr

/-- Function `event.NewClass(id, fingerprint, sample)`.  Modelled from the
spec: a fresh class with the given identity, no example payload and empty
metrics. -/
def Event.NewClass (id fingerprint : String) (sample : Bool) : Event.Class :=
  { Id := id
    Fingerprint := fingerprint
    sample := sample
    Example := none
    Metrics := none
    TotalQueries := 0
    UniqueQueries := 0 }

/-- Pointwise merge of two time distributions (sums add, minima and maxima
combine).  Modelled from the spec: the global entry merges distributions. -/
def Event.TimeStats.merge (x y : Event.TimeStats) : Event.TimeStats :=
  { Sum := x.Sum + y.Sum
    Min := min x.Min y.Min
    Avg := x.Avg + y.Avg
    Med := x.Med + y.Med
    P95 := x.P95 + y.P95
    Max := max x.Max y.Max }

/-- Pointwise merge of two number distributions.  Modelled from the spec:
the global entry merges distributions. -/
def Event.NumberStats.merge (x y : Event.NumberStats) : Event.NumberStats :=
  { Sum := x.Sum + y.Sum
    Min := min x.Min y.Min
    Avg := x.Avg + y.Avg
    Med := x.Med + y.Med
    P95 := x.P95 + y.P95
    Max := max x.Max y.Max }

/-- Merge of two metric maps, key by key. -/
def Event.Metrics.merge (x y : Event.Metrics) : Event.Metrics :=
  { queryTime := x.queryTime.merge y.queryTime
    bytesSent := x.bytesSent.merge y.bytesSent
    rowsSent := x.rowsSent.merge y.rowsSent
    rowsExamined := x.rowsExamined.merge y.rowsExamined }

/-- Method `event.Class.AddClass(newClass)` of the external go-mysql
package.  Modelled from the spec: the receiving (global) class accumulates
the argument's total count, counts it as one more unique class, and merges
its metric distributions; identity, `sample` and `Example` of the receiver
are untouched. -/
def Event.Class.AddClass (g c : Event.Class) : Event.Class :=
  { g with
    TotalQueries := g.TotalQueries + c.TotalQueries
    UniqueQueries := g.UniqueQueries + 1
    Metrics :=
      match g.Metrics, c.Metrics with
      | none, m => m
      | some m, none => some m
      | some m1, some m2 => some (m1.merge m2) }

/-- Type `report.Result` (package `qan/analyzer/report`): a global entry
plus the ordered per-fingerprint classes. -/
structure Result where
  Global : Event.Class
  Class : List Event.Class
deriving DecidableEq, Repr

/-- Database extraction in `createResult` (aggregator.go lines 136-140):
`strings.SplitN(ns, ".", 2)` yields two parts exactly when `ns` contains a
dot, and then the database is the part before the first dot; otherwise the
database stays empty. -/
def dbOf (ns : String) : String :=
  match ns.splitOn dotSep with
  | db :: _ :: _ => db
  | _ => emptyStr

/-- Loop body of `createResult` (aggregator.go lines 133-161): build the
per-fingerprint class for one snapshot entry. -/
def buildClass (config : QAN) (queryInfo : QueryStats) : Event.Class :=
  { Event.NewClass queryInfo.ID queryInfo.Fingerprint config.exampleQueries with
    Example :=
      if config.exampleQueries then
        some
          { QueryTime := queryInfo.QueryTime.Total
            Db := dbOf queryInfo.Namespace
            Query := queryInfo.Query }
      else none
    Metrics :=
      some
        { queryTime := newEventTimeStatsInMilliseconds queryInfo.QueryTime
          bytesSent := newEventNumberStats queryInfo.ResponseLength
          rowsSent := newEventNumberStats queryInfo.Returned
          rowsExamined := newEventNumberStats queryInfo.Scanned }
    TotalQueries := goUInt64 queryInfo.Count
    UniqueQueries := 1 }

/-- Method `createResult` (aggregator.go lines 128-172), taken over the
snapshot `queryStats` that the external `CalcQueriesStats` call returns:
fold the loop, appending each class and accumulating it into the global
class created as `event.NewClass("", "", false)`. -/
def createResult (config : QAN) (queryStats : List QueryStats) : Result :=
  { Global :=
      (queryStats.foldl
        (fun acc queryInfo =>
          (acc.1.AddClass (buildClass config queryInfo),
           acc.2 ++ [buildClass config queryInfo]))
        (Event.NewClass emptyStr emptyStr false, [])).1
    Class :=
      (queryStats.foldl
        (fun acc queryInfo =>
          (acc.1.AddClass (buildClass config queryInfo),
           acc.2 ++ [buildClass config queryInfo]))
        (Event.NewClass emptyStr emptyStr false, [])).2 }

/-! ### Invariants and fixtures -/

/-- Well-formedness of the aggregator's window state: a positive duration,
the window end one duration past the start, and a duration-aligned start.
Established by `New` and preserved by `Add` and `Report`. -/
def WF (a : Aggregator) : Prop :=
  0 < a.D ∧ a.timeEnd = a.timeStart + a.D ∧ a.D ∣ a.timeStart

instance (a : Aggregator) : Decidable (WF a) := by
  unfold WF
  infer_instance

/-- Evolution of the window bounds over one call: either unchanged (no
rotation) or strictly advanced, with the new start at or past the old end
(no duplicate and no retroactive window). -/
def boundsMono (a b : Aggregator) : Prop :=
  (b.timeStart = a.timeStart ∧ b.timeEnd = a.timeEnd) ∨
  (a.timeEnd ≤ b.timeStart ∧ a.timeStart < b.timeStart ∧ a.timeEnd < b.timeEnd)

/-- Default class used as the `getD` fallback when indexing result classes. -/
def defaultClass : Event.Class :=
  Event.NewClass emptyStr emptyStr false

/-- Fixture: an empty well-formed aggregator on the window `[60, 120)`. -/
def aggW : Aggregator :=
  { config := { interval := 1, exampleQueries := false }
    timeStart := 60
    timeEnd := 120
    D := 60
    stats := ([] : List SystemProfile) }

/-- Fixture: the same aggregator after one event inside the window. -/
def aggW1 : Aggregator :=
  { aggW with stats := ([{ ts := 70 }] : List SystemProfile) }

/-- Fixture: a query id. -/
def idW : String := "q1"

/-- Fixture: a namespace with a database part. -/
def nsW : String := "testdb.coll"

/-- Fixture: a canonical fingerprint. -/
def fpW : String := "find coll"

/-- Fixture: a raw query text. -/
def queryW : String := "db.coll.find()"

/-- Fixture: the spec's latency distribution (microseconds), with an average
of 1999 to separate truncation (1) from rounding (2). -/
def latStat : Statistics :=
  { Total := 120000, Min := 1000, Max := 5000, Avg := 1999, Pct95 := 4500, Median := 1500 }

/-- Fixture: a non-negative number distribution. -/
def respStat : Statistics :=
  { Total := 512, Min := 0, Max := 256, Avg := 170, Pct95 := 250, Median := 128 }

/-- Fixture: an all-negative distribution (the defensive-clamp case). -/
def negStat : Statistics :=
  { Total := -1, Min := -2, Max := -3, Avg := -4, Pct95 := -5, Median := -6 }

/-- Fixture: one snapshot entry with the spec's latency numbers. -/
def qW : QueryStats :=
  { ID := idW
    Namespace := nsW
    Fingerprint := fpW
    Query := queryW
    Count := 3
    QueryTime := latStat
    ResponseLength := respStat
    Returned := respStat
    Scanned := respStat }

/-- Fixture: one snapshot entry with all-negative distributions. -/
def qNeg : QueryStats :=
  { ID := idW
    Namespace := nsW
    Fingerprint := fpW
    Query := queryW
    Count := 1
    QueryTime := negStat
    ResponseLength := negStat
    Returned := negStat
    Scanned := negStat }

/-- Fixture: a configuration with example retention enabled. -/
def cfgEx : QAN := { interval := 60, exampleQueries := true }

/-- Fixture: a configuration with example retention disabled. -/
def cfgNoEx : QAN := { interval := 60, exampleQueries := false }

/-! ### Lemmas -/

theorem truncate_le (t d : Nat) : truncate t d ≤ t := by
  unfold truncate
  split
  · exact Nat.le_refl t
  · exact Nat.div_mul_le_self t d

theorem lt_truncate_add_self (t : Nat) {d : Nat} (hd : 0 < d) :
    t < truncate t d + d := by
  unfold truncate
  rw [if_neg (Nat.pos_iff_ne_zero.mp hd)]
  have h2 := Nat.mod_lt t hd
  calc t = d * (t / d) + t % d := (Nat.div_add_mod t d).symm
    _ < d * (t / d) + d := Nat.add_lt_add_left h2 _
    _ = t / d * d + d := by rw [Nat.mul_comm]

theorem dvd_truncate (t : Nat) {d : Nat} (hd : 0 < d) : d ∣ truncate t d := by
  unfold truncate
  rw [if_neg (Nat.pos_iff_ne_zero.mp hd)]
  exact dvd_mul_left d (t / d)

theorem le_truncate_of_dvd_le {m t d : Nat} (hd : 0 < d) (hdvd : d ∣ m)
    (hle : m ≤ t) : m ≤ truncate t d := by
  unfold truncate
  rw [if_neg (Nat.pos_iff_ne_zero.mp hd)]
  obtain ⟨k, rfl⟩ := hdvd
  have hk : k ≤ t / d := by
    refine (Nat.le_div_iff_mul_le hd).mpr ?_
    rw [Nat.mul_comm]
    exact hle
  calc d * k ≤ d * (t / d) := Nat.mul_le_mul (Nat.le_refl d) hk
    _ = t / d * d := Nat.mul_comm _ _

theorem WF_newInterval (a : Aggregator) (ts : Nat) (hD : 0 < a.D) :
    WF (a.newInterval ts) :=
  ⟨hD, rfl, dvd_truncate ts hD⟩

theorem WF_New (s : Nat) (c : QAN) : WF (New s c) := by
  unfold New
  refine WF_newInterval _ s ?_
  show 0 < (if c.interval = 0 then DefaultInterval else c.interval) * nsPerSecond
  have hns : 0 < nsPerSecond := by decide
  by_cases h : c.interval = 0
  · rw [if_pos h]
    exact Nat.mul_pos (by decide) hns
  · rw [if_neg h]
    exact Nat.mul_pos (Nat.pos_of_ne_zero h) hns

theorem rotation_advances (a : Aggregator) (t : Nat) (hwf : WF a)
    (ht : a.timeEnd ≤ t) :
    a.timeEnd ≤ truncate t a.D ∧ a.timeStart < truncate t a.D ∧
    a.timeEnd < truncate t a.D + a.D := by
  obtain ⟨hD, hEnd, hDvd⟩ := hwf
  have hDvdEnd : a.D ∣ a.timeEnd := hEnd ▸ dvd_add hDvd (dvd_refl a.D)
  have h1 : a.timeEnd ≤ truncate t a.D := le_truncate_of_dvd_le hD hDvdEnd ht
  refine ⟨h1, ?_, ?_⟩
  · calc a.timeStart < a.timeStart + a.D := Nat.lt_add_of_pos_right hD
      _ = a.timeEnd := hEnd.symm
      _ ≤ truncate t a.D := h1
  · calc a.timeEnd ≤ truncate t a.D := h1
      _ < truncate t a.D + a.D := Nat.lt_add_of_pos_right hD

theorem interval_before_end (a : Aggregator) (t : Nat) (h : t < a.timeEnd) :
    a.interval t = (a, none) := by
  simp [Aggregator.interval, h]

theorem interval_state_due (a : Aggregator) (t : Nat) (h : a.timeEnd ≤ t) :
    (a.interval t).1 = a.newInterval t := by
  have h' : ¬ t < a.timeEnd := Nat.not_lt.mpr h
  cases hq : a.stats.queriesEmpty <;> simp [Aggregator.interval, h', hq]

theorem interval_report_due (a : Aggregator) (t : Nat) (h : a.timeEnd ≤ t)
    (hne : a.stats ≠ ([] : List SystemProfile)) :
    (a.interval t).2 = some (MakeReport a.config a.timeStart a.timeEnd a.stats) := by
  have h' : ¬ t < a.timeEnd := Nat.not_lt.mpr h
  have hq : a.stats.queriesEmpty = false := by
    cases hs : a.stats with
    | nil => exact absurd hs hne
    | cons x xs => simp [StatsState.queriesEmpty, hs]
  simp [Aggregator.interval, h', hq]

theorem interval_report_empty (a : Aggregator) (t : Nat) (h : a.timeEnd ≤ t)
    (hemp : a.stats = ([] : List SystemProfile)) :
    (a.interval t).2 = none := by
  have h' : ¬ t < a.timeEnd := Nat.not_lt.mpr h
  simp [Aggregator.interval, h', StatsState.queriesEmpty, hemp]

theorem Add_due (a : Aggregator) (doc : SystemProfile) (hwf : WF a)
    (ht : a.timeEnd ≤ doc.ts) :
    a.Add doc =
      ({ a.newInterval doc.ts with stats := ([doc] : List SystemProfile) },
       (a.interval doc.ts).2, none) := by
  have hse : a.timeStart ≤ a.timeEnd := by
    rw [hwf.2.1]
    exact Nat.le_add_right _ _
  have hstale : ¬ doc.ts < a.timeStart := Nat.not_lt.mpr (le_trans hse ht)
  unfold Aggregator.Add
  rw [if_neg hstale, interval_state_due a doc.ts ht]
  rfl

theorem WF_interval_state (a : Aggregator) (t : Nat) (hwf : WF a) :
    WF (a.interval t).1 ∧ boundsMono a (a.interval t).1 := by
  by_cases h : t < a.timeEnd
  · rw [interval_before_end a t h]
    exact ⟨hwf, Or.inl ⟨rfl, rfl⟩⟩
  · have ht := Nat.le_of_not_lt h
    rw [interval_state_due a t ht]
    have hadv := rotation_advances a t hwf ht
    exact ⟨WF_newInterval a t hwf.1, Or.inr ⟨hadv.1, hadv.2.1, hadv.2.2⟩⟩

theorem WF_Add_state (a : Aggregator) (doc : SystemProfile) (hwf : WF a) :
    WF (a.Add doc).1 ∧ boundsMono a (a.Add doc).1 := by
  unfold Aggregator.Add
  by_cases h : doc.ts < a.timeStart
  · rw [if_pos h]
    exact ⟨hwf, Or.inl ⟨rfl, rfl⟩⟩
  · rw [if_neg h]
    have hi := WF_interval_state a doc.ts hwf
    exact ⟨hi.1, hi.2⟩

theorem WF_Report_state (a : Aggregator) (t : Nat) (hwf : WF a) :
    WF (a.Report t).1 ∧ boundsMono a (a.Report t).1 :=
  WF_interval_state a t hwf

theorem createResult_foldl (config : QAN) (qs : List QueryStats)
    (g : Event.Class) (cs : List Event.Class) :
    qs.foldl
        (fun acc queryInfo =>
          (acc.1.AddClass (buildClass config queryInfo),
           acc.2 ++ [buildClass config queryInfo]))
        (g, cs)
      = (qs.foldl (fun gl queryInfo => gl.AddClass (buildClass config queryInfo)) g,
         cs ++ qs.map (buildClass config)) := by
  induction qs generalizing g cs with
  | nil => simp
  | cons q rest ih =>
      simp only [List.foldl_cons, List.map_cons]
      rw [ih]
      simp

theorem createResult_Class_eq (config : QAN) (qs : List QueryStats) :
    (createResult config qs).Class = qs.map (buildClass config) := by
  simp only [createResult]
  rw [createResult_foldl]
  simp

theorem createResult_Global_eq (config : QAN) (qs : List QueryStats) :
    (createResult config qs).Global
      = qs.foldl (fun gl queryInfo => gl.AddClass (buildClass config queryInfo))
          (Event.NewClass emptyStr emptyStr false) := by
  simp only [createResult]
  rw [createResult_foldl]

theorem foldl_AddClass_fields (f : QueryStats → Event.Class) (qs : List QueryStats)
    (g : Event.Class) :
    (qs.foldl (fun gl q => gl.AddClass (f q)) g).Id = g.Id ∧
    (qs.foldl (fun gl q => gl.AddClass (f q)) g).Fingerprint = g.Fingerprint ∧
    (qs.foldl (fun gl q => gl.AddClass (f q)) g).sample = g.sample ∧
    (qs.foldl (fun gl q => gl.AddClass (f q)) g).Example = g.Example := by
  induction qs generalizing g with
  | nil => exact ⟨rfl, rfl, rfl, rfl⟩
  | cons q rest ih =>
      simp only [List.foldl_cons]
      have h := ih (g.AddClass (f q))
      exact ⟨h.1, h.2.1, h.2.2.1, h.2.2.2⟩

theorem getD_map_of_lt {α β : Type} (f : α → β) (l : List α) (i : Nat)
    (hi : i < l.length) (dflt : β) :
    (l.map f).getD i dflt = f (l.get ⟨i, hi⟩) := by
  induction l generalizing i with
  | nil => exact absurd hi (by simp)
  | cons x rest ih =>
      cases i with
      | zero => rfl
      | succ n => exact ih n (Nat.lt_of_succ_lt_succ hi)

/-! ### Claims -/

/-- C1: for every `Add` call whose event timestamp is at or after the
current window end, rotation happens before accumulation: the call returns
a report stamped with the closing window's bounds (when the closing window
is non-empty), the event lands in the newly established window (the fresh
engine holds exactly this event), and the new window starts at or after the
closing window's end. -/
theorem add_rotation_before_accumulation (a : Aggregator) (doc : SystemProfile)
    (hwf : WF a) (ht : a.timeEnd ≤ doc.ts) :
    (a.stats ≠ ([] : List SystemProfile) →
      (a.Add doc).2.1 = some (MakeReport a.config a.timeStart a.timeEnd a.stats)) ∧
    (a.Add doc).1.stats = ([doc] : List SystemProfile) ∧
    (a.Add doc).1.timeStart = truncate doc.ts a.D ∧
    (a.Add doc).1.timeEnd = truncate doc.ts a.D + a.D ∧
    a.timeEnd ≤ (a.Add doc).1.timeStart := by
  rw [Add_due a doc hwf ht]
  exact ⟨fun hne => interval_report_due a doc.ts ht hne, rfl, rfl, rfl,
         (rotation_advances a doc.ts hwf ht).1⟩

/-- Witness for C1 at a concrete state: closing window `[60, 120)` holding
one event, trigger event at 125 with duration 60. -/
theorem add_rotation_before_accumulation_witness :
    (aggW1.Add { ts := 125 }).2.1 =
      some (MakeReport aggW1.config 60 120 ([{ ts := 70 }] : List SystemProfile)) ∧
    (aggW1.Add { ts := 125 }).1.stats = ([{ ts := 125 }] : List SystemProfile) ∧
    (aggW1.Add { ts := 125 }).1.timeStart = 120 ∧
    (aggW1.Add { ts := 125 }).1.timeEnd = 180 := by
  have h := add_rotation_before_accumulation aggW1 { ts := 125 } (by decide) (by decide)
  exact ⟨h.1 (by decide), h.2.1, h.2.2.1, h.2.2.2.1⟩

/-- C2: rotation occurs exactly when the trigger instant reaches the window
end.  A trigger strictly before the end leaves `interval` (and `Report`,
and the bounds seen by `Add`) unchanged with no report; a trigger at or
after the end (including exactly at it) rebounds the window, strictly
advancing the bounds. -/
theorem rotation_iff_trigger_reaches_window_end (a : Aggregator) (t : Nat)
    (hwf : WF a) :
    (t < a.timeEnd →
      a.interval t = (a, none) ∧
      a.Report t = (a, none) ∧
      ∀ doc : SystemProfile, doc.ts = t →
        (a.Add doc).1.timeStart = a.timeStart ∧
        (a.Add doc).1.timeEnd = a.timeEnd ∧
        (a.Add doc).2.1 = none) ∧
    (a.timeEnd ≤ t →
      (a.interval t).1.timeStart = truncate t a.D ∧
      (a.interval t).1.timeEnd = truncate t a.D + a.D ∧
      a.timeStart < (a.interval t).1.timeStart ∧
      a.timeEnd ≤ (a.interval t).1.timeStart) := by
  constructor
  · intro h
    have hint := interval_before_end a t h
    refine ⟨hint, hint, ?_⟩
    intro doc hdoc
    subst hdoc
    by_cases hs : doc.ts < a.timeStart
    · simp [Aggregator.Add, hs]
    · unfold Aggregator.Add
      rw [if_neg hs, hint]
      exact ⟨rfl, rfl, rfl⟩
  · intro h
    rw [interval_state_due a t h]
    have hadv := rotation_advances a t hwf h
    exact ⟨rfl, rfl, hadv.2.1, hadv.1⟩

/-- Witness for C2: at 119 (strictly before the end, no rotation) and at
exactly 120 (the end, rotation with strictly larger bounds). -/
theorem rotation_iff_trigger_reaches_window_end_witness :
    aggW.interval 119 = (aggW, none) ∧
    (aggW.interval 120).1.timeStart = 120 ∧
    aggW.timeStart < (aggW.interval 120).1.timeStart := by
  have h1 := rotation_iff_trigger_reaches_window_end aggW 119 (by decide)
  have h2 := rotation_iff_trigger_reaches_window_end aggW 120 (by decide)
  exact ⟨(h1.1 (by decide)).1, (h2.2 (by decide)).1, (h2.2 (by decide)).2.2.1⟩

/-- C3: an event strictly before the current window start is dropped
whole: nil report, nil error, no rotation, and the stats engine untouched
(the full state is returned unchanged). -/
theorem stale_event_is_noop (a : Aggregator) (doc : SystemProfile)
    (h : doc.ts < a.timeStart) :
    a.Add doc = (a, none, none) := by
  simp [Aggregator.Add, h]

/-- Witness for C3: an event at 10 against the window `[60, 120)`. -/
theorem stale_event_is_noop_witness :
    aggW.Add { ts := 10 } = (aggW, none, none) :=
  stale_event_is_noop aggW { ts := 10 } (by decide)

/-- C4: a rotation that closes a window with zero observed fingerprints
produces no report, via `Report` or via `Add`, yet the engine is reset and
the window advances to the truncation of the trigger instant. -/
theorem empty_window_no_report_still_advances (a : Aggregator) (t : Nat)
    (hwf : WF a) (hemp : a.stats = ([] : List SystemProfile)) (ht : a.timeEnd ≤ t) :
    (a.Report t).2 = none ∧
    (a.Report t).1.timeStart = truncate t a.D ∧
    (a.Report t).1.timeEnd = truncate t a.D + a.D ∧
    (a.Report t).1.stats = ([] : List SystemProfile) ∧
    ∀ doc : SystemProfile, doc.ts = t →
      (a.Add doc).2.1 = none ∧
      (a.Add doc).1.timeStart = truncate t a.D ∧
      (a.Add doc).1.timeEnd = truncate t a.D + a.D := by
  have hst : (a.Report t).1 = a.newInterval t := interval_state_due a t ht
  refine ⟨interval_report_empty a t ht hemp, ?_, ?_, ?_, ?_⟩
  · rw [hst]; rfl
  · rw [hst]; rfl
  · rw [hst]; rfl
  · intro doc hdoc
    subst hdoc
    rw [Add_due a doc hwf ht]
    exact ⟨interval_report_empty a doc.ts ht hemp, rfl, rfl⟩

/-- Witness for C4: flushing the empty window `[60, 120)` at 185 advances
it to `[180, 240)` with no report. -/
theorem empty_window_no_report_still_advances_witness :
    (aggW.Report 185).2 = none ∧
    (aggW.Report 185).1.timeStart = 180 ∧
    (aggW.Report 185).1.timeEnd = 240 := by
  have h := empty_window_no_report_still_advances aggW 185 (by decide) (by decide) (by decide)
  exact ⟨h.1, h.2.1, h.2.2.1⟩

/-- C5: window invariants.  Construction yields a well-formed state
(positive duration, end = start + duration, aligned start); truncation
satisfies `truncate t d <= t < truncate t d + d`; well-formedness gives
`timeStart <= timeEnd`, `timeEnd - timeStart = D` and alignment; and every
`Add` or `Report` call preserves well-formedness while the bounds either
stay put or strictly increase with the new start at or past the old end
(no duplicate, no retroactive window). -/
theorem window_invariants :
    (∀ (s : Nat) (c : QAN), WF (New s c)) ∧
    (∀ t d : Nat, 0 < d → truncate t d ≤ t ∧ t < truncate t d + d) ∧
    (∀ a : Aggregator, WF a →
      a.timeStart ≤ a.timeEnd ∧ a.timeEnd - a.timeStart = a.D ∧ a.D ∣ a.timeStart) ∧
    (∀ (a : Aggregator) (doc : SystemProfile), WF a →
      WF (a.Add doc).1 ∧ boundsMono a (a.Add doc).1) ∧
    (∀ (a : Aggregator) (t : Nat), WF a →
      WF (a.Report t).1 ∧ boundsMono a (a.Report t).1) := by
  refine ⟨WF_New, ?_, ?_, WF_Add_state, WF_Report_state⟩
  · intro t d hd
    exact ⟨truncate_le t d, lt_truncate_add_self t hd⟩
  · intro a hwf
    obtain ⟨hD, hEnd, hDvd⟩ := hwf
    refine ⟨?_, ?_, hDvd⟩ <;> omega

/-- Witness for C5 at concrete inputs: a freshly constructed aggregator is
well-formed, truncation brackets 125 within `[120, 180)`, the fixture
window satisfies the bound equations, and concrete `Add` and `Report`
steps preserve well-formedness and advance the bounds. -/
theorem window_invariants_witness :
    WF (New 95 { interval := 0, exampleQueries := false }) ∧
    (truncate 125 60 ≤ 125 ∧ 125 < truncate 125 60 + 60) ∧
    (aggW.timeStart ≤ aggW.timeEnd ∧ aggW.timeEnd - aggW.timeStart = aggW.D ∧
      aggW.D ∣ aggW.timeStart) ∧
    WF (aggW1.Add { ts := 125 }).1 ∧
    boundsMono aggW (aggW.Report 250).1 := by
  have h := window_invariants
  exact ⟨h.1 95 { interval := 0, exampleQueries := false },
         h.2.1 125 60 (by decide),
         h.2.2.1 aggW (by decide),
         (h.2.2.2.1 aggW1 { ts := 125 } (by decide)).1,
         (h.2.2.2.2 aggW 250 (by decide)).2⟩

/-- C6: in the built `Result`, every latency statistic of the i-th class —
sum, min, avg, median, p95, max — equals the corresponding input statistic
divided by 1000 with truncating division (`Int.tdiv`, Go's integer
division, rounds toward zero). -/
theorem latency_stats_converted_by_truncating_division (config : QAN)
    (qs : List QueryStats) (i : Nat) (hi : i < qs.length) :
    ((createResult config qs).Class.getD i defaultClass).Metrics.map
        Event.Metrics.queryTime
      = some
          { Sum := (qs.get ⟨i, hi⟩).QueryTime.Total.tdiv 1000
            Min := (qs.get ⟨i, hi⟩).QueryTime.Min.tdiv 1000
            Avg := (qs.get ⟨i, hi⟩).QueryTime.Avg.tdiv 1000
            Med := (qs.get ⟨i, hi⟩).QueryTime.Median.tdiv 1000
            P95 := (qs.get ⟨i, hi⟩).QueryTime.Pct95.tdiv 1000
            Max := (qs.get ⟨i, hi⟩).QueryTime.Max.tdiv 1000 } := by
  rw [createResult_Class_eq, getD_map_of_lt _ qs i hi]
  rfl

/-- Witness for C6 with the spec's numbers: sum 120000 -> 120, min 1000 ->
1, max 5000 -> 5; average 1999 -> 1 (truncation, where rounding would give
2). -/
theorem latency_stats_converted_by_truncating_division_witness :
    ((createResult cfgEx [qW]).Class.getD 0 defaultClass).Metrics.map
        Event.Metrics.queryTime
      = some { Sum := 120, Min := 1, Avg := 1, Med := 1, P95 := 4, Max := 5 } := by
  have h := latency_stats_converted_by_truncating_division cfgEx [qW] 0 (by decide)
  rw [h]
  decide

/-- C7 counterexample: with an all-negative input distribution the built
result's bytes-sent sum is `2^64 - 1`, not zero — the negative statistic is
not clamped to zero. -/
theorem negative_stat_not_clamped_to_zero :
    ((createResult cfgNoEx [qNeg]).Class.getD 0 defaultClass).Metrics.map
        (fun m => m.bytesSent.Sum)
      = some 18446744073709551615 ∧
    (18446744073709551615 : Nat) ≠ 0 :=
  ⟨by decide, by decide⟩

/-- C7 (amended): in the built `Result` the non-latency metrics (bytes
sent, rows sent, rows examined) are passed through without unit conversion
as non-negative integers via Go's `uint64` conversion, which reduces the
value modulo `2^64`: a non-negative in-range statistic is unchanged, while
a negative statistic wraps to `x + 2^64` (never zero) instead of being
clamped to zero. -/
theorem number_stats_passthrough_with_wraparound (config : QAN)
    (qs : List QueryStats) (i : Nat) (hi : i < qs.length) :
    ((createResult config qs).Class.getD i defaultClass).Metrics.map
        (fun m => (m.bytesSent, m.rowsSent, m.rowsExamined))
      = some
          (newEventNumberStats (qs.get ⟨i, hi⟩).ResponseLength,
           newEventNumberStats (qs.get ⟨i, hi⟩).Returned,
           newEventNumberStats (qs.get ⟨i, hi⟩).Scanned) ∧
    (∀ x : Int, 0 ≤ x → x < (2 : Int) ^ 64 → (goUInt64 x : Int) = x) ∧
    (∀ x : Int, -((2 : Int) ^ 63) ≤ x → x < 0 →
      (goUInt64 x : Int) = x + (2 : Int) ^ 64 ∧ goUInt64 x ≠ 0) := by
  refine ⟨?_, ?_, ?_⟩
  · rw [createResult_Class_eq, getD_map_of_lt _ qs i hi]
    rfl
  · intro x h0 hlt
    unfold goUInt64
    rw [Int.emod_eq_of_lt h0 hlt, Int.toNat_of_nonneg h0]
  · intro x hlb hub
    have h64 : (2 : Int) ^ 64 = 18446744073709551616 := by norm_num
    have h63 : (2 : Int) ^ 63 = 9223372036854775808 := by norm_num
    rw [h63] at hlb
    unfold goUInt64
    rw [h64]
    constructor <;> omega

/-- Witness for C7 (amended): concrete pass-through on a non-negative
distribution and concrete wraparound on -1. -/
theorem number_stats_passthrough_with_wraparound_witness :
    ((createResult cfgNoEx [qW]).Class.getD 0 defaultClass).Metrics.map
        (fun m => (m.bytesSent, m.rowsSent, m.rowsExamined))
      = some (newEventNumberStats qW.ResponseLength,
              newEventNumberStats qW.Returned,
              newEventNumberStats qW.Scanned) ∧
    (goUInt64 512 : Int) = 512 ∧
    goUInt64 (-1) ≠ 0 := by
  have h := number_stats_passthrough_with_wraparound cfgNoEx [qW] 0 (by decide)
  exact ⟨h.1, h.2.1 512 (by norm_num) (by norm_num),
         (h.2.2 (-1) (by norm_num) (by norm_num)).2⟩

/-- C8: a configuration with interval zero makes the constructed aggregator
use both defaults together — interval 60 and example queries on, overriding
the supplied example-queries value — while a non-zero interval keeps the
configuration exactly as given; the duration always follows the effective
interval. -/
theorem zero_interval_selects_both_defaults (s : Nat) (c : QAN) :
    (c.interval = 0 →
      (New s c).config.interval = 60 ∧
      (New s c).config.exampleQueries = true ∧
      (New s c).D = 60 * nsPerSecond) ∧
    (c.interval ≠ 0 →
      (New s c).config = c ∧ (New s c).D = c.interval * nsPerSecond) := by
  constructor
  · intro h
    simp [New, Aggregator.newInterval, h, DefaultInterval, DefaultExampleQueries]
  · intro h
    simp [New, Aggregator.newInterval, h]

/-- Witness for C8: interval zero with example queries supplied as false
still yields true; interval 5 keeps the supplied configuration. -/
theorem zero_interval_selects_both_defaults_witness :
    (New 0 { interval := 0, exampleQueries := false }).config.exampleQueries = true ∧
    (New 0 { interval := 5, exampleQueries := false }).config
      = { interval := 5, exampleQueries := false } := by
  have h0 := zero_interval_selects_both_defaults 0 { interval := 0, exampleQueries := false }
  have h5 := zero_interval_selects_both_defaults 0 { interval := 5, exampleQueries := false }
  exact ⟨(h0.1 rfl).2.1, (h5.2 (by decide)).1⟩

/-- C10: the global aggregate entry of every built `Result` is created with
an empty id, an empty fingerprint and example retention disabled, and never
carries an example payload — even when example retention is enabled and
every per-fingerprint entry carries one. -/
theorem global_entry_never_carries_example (config : QAN) (qs : List QueryStats) :
    (createResult config qs).Global.Id = emptyStr ∧
    (createResult config qs).Global.Fingerprint = emptyStr ∧
    (createResult config qs).Global.sample = false ∧
    (createResult config qs).Global.Example = none ∧
    (config.exampleQueries = true →
      ∀ cls ∈ (createResult config qs).Class, cls.Example.isSome = true) := by
  have hg := createResult_Global_eq config qs
  have hf := foldl_AddClass_fields (buildClass config) qs
    (Event.NewClass emptyStr emptyStr false)
  refine ⟨?_, ?_, ?_, ?_, ?_⟩
  · rw [hg]; exact hf.1
  · rw [hg]; exact hf.2.1
  · rw [hg]; exact hf.2.2.1
  · rw [hg]; exact hf.2.2.2
  · intro hex cls hcls
    rw [createResult_Class_eq] at hcls
    obtain ⟨q, hq, rfl⟩ := List.mem_map.mp hcls
    simp [buildClass, Event.NewClass, hex]

/-- Witness for C10 with example retention enabled: the global entry has no
example while every class entry has one. -/
theorem global_entry_never_carries_example_witness :
    (createResult cfgEx [qW]).Global.Example = none ∧
    ∀ cls ∈ (createResult cfgEx [qW]).Class, cls.Example.isSome = true := by
  have h := global_entry_never_carries_example cfgEx [qW]
  exact ⟨h.2.2.2.1, h.2.2.2.2 rfl⟩
